import Mathlib

/-!
Verification development for the email suggestion backend.

This file gives a shallow embedding, in Lean, of the core pipeline of the
repository: the MIME payload decoder (`_get_body_text` / `_decode_base64` in
`backend/services/gmail_api_service.py`), the chunked batch metadata fetcher
(`get_multiple_messages_metadata` there and the chunk loop in
`backend/api/routes/emails.py`), the message-detail extraction
(`get_message_details`), the suggestion client's response parser and retry
loop (`backend/services/local_llm_service.py`), and the suggestion route's
thread-context builder and self-reply short-circuit
(`backend/api/routes/emails.py`).

Modelling conventions:
- Python strings are Lean `String`s; all operations are implemented over the
  underlying character list so that every definition evaluates by kernel
  reduction. Python truthiness of a string is `s ≠ ""`; truthiness of an
  optional string is `optTruthy`.
- Python dictionaries keyed by strings are association lists with Python's
  assignment semantics (`dictInsert` updates in place or appends).
- Remote collaborators (the mail API, the generation backend) are passed in
  as explicit environment functions, following the boundary contracts: a
  per-item batch outcome for the batch fetcher, and a per-attempt outcome
  for the suggestion client's retry loop.
- Exceptions are `Except`/`Option` results; a caught-and-absorbed exception
  becomes the value the handler substitutes, exactly as in the source.
-/

/-! ## Pythonic string primitives (character-list based) -/

/-- Python truthiness of an optional string: `None` and `""` are falsy. -/
def optTruthy (o : Option String) : Bool := o.getD "" ≠ ""

/-- Python `str.lower()` (ASCII case folding, which covers all strings the
source compares case-insensitively). -/
def pyLower (s : String) : String := String.mk (s.data.map Char.toLower)

/-- Python `str.startswith(pat)`. -/
def pyStarts (s pat : String) : Bool := s.data.take pat.data.length = pat.data

/-- Python `str.endswith(pat)`. -/
def pyEnds (s pat : String) : Bool := s.data.reverse.take pat.data.length = pat.data.reverse

/-- Whitespace for Python `str.strip()` / `str.split()`. -/
def pySpace (c : Char) : Bool := c = ' ' ∨ c = '\t' ∨ c = '\n' ∨ c = '\r' ∨ c = '\x0b' ∨ c = '\x0c'

/-- Python `str.strip()`: remove leading and trailing whitespace. -/
def pyStrip (s : String) : String :=
  String.mk (((s.data.dropWhile pySpace).reverse.dropWhile pySpace).reverse)

/-- Python `s[a:]` character slice. -/
def pySliceFrom (s : String) (a : Nat) : String := String.mk (s.data.drop a)

/-- Python `s[a:b]` character slice. -/
def pySlice (s : String) (a b : Nat) : String := String.mk ((s.data.take b).drop a)

/-- Python `len(s)`. -/
def pyLen (s : String) : Nat := s.data.length

/-- Python `sub in s` substring test. The empty needle is always contained. -/
def pyIn (needle hay : String) : Bool :=
  if needle.data = [] then true
  else (List.range (hay.data.length + 1)).any
    (fun i => (hay.data.drop i).take needle.data.length = needle.data)

/-- Split a character list at every occurrence of a separator character,
keeping empty segments, like Python `str.split("\n")`. -/
def splitOnChar (sep : Char) : List Char → List (List Char)
  | [] => [[]]
  | c :: rest =>
    let r := splitOnChar sep rest
    if c = sep then [] :: r
    else match r with
      | [] => [[c]]
      | seg :: segs => (c :: seg) :: segs

/-- Python `s.split("\n")` as a list of strings. -/
def pySplitLines (s : String) : List String := (splitOnChar '\n' s.data).map String.mk

/-- Python `s.split()` (split on whitespace runs, dropping empty fields),
used for the `References` header. -/
def pySplitWs (s : String) : List String :=
  ((s.data.splitBy (fun a b => ¬pySpace a ∧ ¬pySpace b)).filter
    (fun seg => ¬seg.any pySpace)).filterMap
    (fun seg => if seg = [] then none else some (String.mk seg))

/-! ## Python dictionaries as association lists -/

/-- Python `d[k] = v` on a string-keyed dict: update the entry in place if the
key exists, otherwise append it. -/
def dictInsert {α : Type} : List (String × α) → String → α → List (String × α)
  | [], k, v => [(k, v)]
  | (k', v') :: t, k, v => if k' = k then (k, v) :: t else (k', v') :: dictInsert t k v

/-- Python `d.get(k)` (`None` when absent). -/
def dictFind {α : Type} : List (String × α) → String → Option α
  | [], _ => none
  | (k', v) :: t, k => if k' = k then some v else dictFind t k

/-- The key view of a dict, in insertion order (Python `d.keys()`). -/
def dictKeys {α : Type} (m : List (String × α)) : List String := m.map Prod.fst

/-! ## `_decode_base64` (gmail_api_service.py)

The source pads the input to a multiple of 4 characters, URL-safe-translates
it, base64-decodes it (Python's decoder discards characters outside the
alphabet and raises on bad padding; any exception is caught and replaced by a
fixed sentinel string), then decodes the bytes as UTF-8, falling back to
Latin-1. -/

/-- The value of a standard-alphabet base64 character. -/
def b64Index (c : Char) : Option Nat :=
  if 'A' ≤ c ∧ c ≤ 'Z' then some (c.toNat - 'A'.toNat)
  else if 'a' ≤ c ∧ c ≤ 'z' then some (c.toNat - 'a'.toNat + 26)
  else if '0' ≤ c ∧ c ≤ '9' then some (c.toNat - '0'.toNat + 52)
  else if c = '+' then some 62
  else if c = '/' then some 63
  else none

/-- Turn base64 digit values into bytes: full quads give 3 bytes, a trailing
pair gives 1 byte and a trailing triple gives 2 bytes. -/
def quadsToBytes : List Nat → List Nat
  | a :: b :: c :: d :: rest =>
      (a * 4 + b / 16) :: ((b % 16) * 16 + c / 4) :: ((c % 4) * 64 + d) :: quadsToBytes rest
  | [a, b] => [a * 4 + b / 16]
  | [a, b, c] => [a * 4 + b / 16, (b % 16) * 16 + c / 4]
  | _ => []

/-- Strict UTF-8 decoding of a byte list (rejecting truncated sequences,
overlong encodings and surrogates, as Python's `bytes.decode("utf-8")` does).
`none` models a `UnicodeDecodeError`. -/
def utf8DecodeBytes : List Nat → Option (List Char)
  | [] => some []
  | b :: rest =>
    if b < 0x80 then
      (utf8DecodeBytes rest).map (fun cs => Char.ofNat b :: cs)
    else if 0xC2 ≤ b ∧ b ≤ 0xDF then
      match rest with
      | b2 :: rest2 =>
        if 0x80 ≤ b2 ∧ b2 ≤ 0xBF then
          (utf8DecodeBytes rest2).map (fun cs => Char.ofNat ((b - 0xC0) * 64 + (b2 - 0x80)) :: cs)
        else none
      | [] => none
    else if 0xE0 ≤ b ∧ b ≤ 0xEF then
      match rest with
      | b2 :: b3 :: rest3 =>
        if ((if b = 0xE0 then 0xA0 else 0x80) ≤ b2 ∧ b2 ≤ (if b = 0xED then 0x9F else 0xBF))
            ∧ (0x80 ≤ b3 ∧ b3 ≤ 0xBF) then
          (utf8DecodeBytes rest3).map
            (fun cs => Char.ofNat ((b - 0xE0) * 4096 + (b2 - 0x80) * 64 + (b3 - 0x80)) :: cs)
        else none
      | _ => none
    else if 0xF0 ≤ b ∧ b ≤ 0xF4 then
      match rest with
      | b2 :: b3 :: b4 :: rest4 =>
        if ((if b = 0xF0 then 0x90 else 0x80) ≤ b2 ∧ b2 ≤ (if b = 0xF4 then 0x8F else 0xBF))
            ∧ (0x80 ≤ b3 ∧ b3 ≤ 0xBF) ∧ (0x80 ≤ b4 ∧ b4 ≤ 0xBF) then
          (utf8DecodeBytes rest4).map
            (fun cs =>
              Char.ofNat ((b - 0xF0) * 262144 + (b2 - 0x80) * 4096 + (b3 - 0x80) * 64 + (b4 - 0x80)) :: cs)
        else none
      | _ => none
    else none

/-- `_decode_base64(data)`: pad to a multiple of 4, translate the URL-safe
alphabet, drop characters outside the alphabet, decode; bad padding (a
residual group of one digit, or a total length not a multiple of 4) raises in
Python and is caught, yielding the fixed sentinel. The decoded bytes are
interpreted as UTF-8 with a Latin-1 fallback. -/
def decode_base64 (data : String) : String :=
  let padLen := data.data.length % 4
  let padded := if padLen ≠ 0 then data.data ++ List.replicate (4 - padLen) '=' else data.data
  let translated := padded.map (fun c => if c = '-' then '+' else if c = '_' then '/' else c)
  let kept := translated.filter (fun c => (b64Index c).isSome ∨ c = '=')
  let dataChars := kept.takeWhile (fun c => c ≠ '=')
  if kept.length % 4 ≠ 0 ∨ dataChars.length % 4 = 1 then
    "(Could not decode message body)"
  else
    let bytes := quadsToBytes (dataChars.filterMap b64Index)
    match utf8DecodeBytes bytes with
    | some cs => String.mk cs
    | none => String.mk (bytes.map Char.ofNat)

/-! ## `_get_body_text` (gmail_api_service.py)

A Gmail message payload is a tree: an optional `mimeType`, an optional body
with inline data (`none` models both a missing `body` dict and a missing
`data` key), and an optional `parts` list (`none` models the absence of the
`parts` key, which the source distinguishes from an empty list). -/

inductive Payload where
  | node (mimeType : Option String) (bodyData : Option String) (parts : Option (List Payload))
deriving Repr

def Payload.mime : Payload → Option String | .node m _ _ => m

def Payload.bodyData : Payload → Option String | .node _ b _ => b

def Payload.subparts : Payload → Option (List Payload) | .node _ _ p => p

/-- The sentinel returned by the recursion-depth guard. -/
def tooComplexSentinel : String := "(Email structure too complex to parse)"

/-- The "Case 1" block of `_get_body_text`: the node's own inline body data,
classified by declared content type into the `(plain_text, html_text)`
accumulator pair (an undeclared-but-present type defaults to plain; an
absent or empty `data` contributes nothing). -/
def case1Pair (mt : Option String) (bd : Option String) : Option String × Option String :=
  match bd with
  | some d =>
    if d ≠ "" then
      let bodyData := decode_base64 d
      let mtl := pyLower (mt.getD "")
      if mtl = "text/plain" then (some bodyData, none)
      else if mtl = "text/html" then (none, some bodyData)
      else if bodyData ≠ "" then (some bodyData, none)
      else (none, none)
    else (none, none)
  | none => (none, none)

/-- Merging one nested recursion result into the accumulators: a truthy
nested text fills the slot matching its html flag if that slot is still
unset. The depth guard's sentinel arrives here as a non-html text. -/
def mergeNested (nested : String × Bool) (plain html : Option String) :
    Option String × Option String :=
  if nested.1 ≠ "" then
    if nested.2 ∧ html = none then (plain, some nested.1)
    else if ¬nested.2 ∧ plain = none then (some nested.1, html)
    else (plain, html)
  else (plain, html)

/-- The final selection of `_get_body_text`: a truthy html text wins, else a
truthy plain text, else `("", false)`. -/
def selectBody (pair : Option String × Option String) : String × Bool :=
  if optTruthy pair.2 then (pair.2.getD "", true)
  else if optTruthy pair.1 then (pair.1.getD "", false)
  else ("", false)

mutual

/-- `_get_body_text(payload, depth, max_depth)`. Guard first; then the node's
own inline data is classified (`case1Pair`); then each part is visited in
order: plain and html leaves fill their slot only if it is still unset
(first-found wins), and a part that has `parts` or declares a `multipart/`
type is recursed into one level deeper, its result merged under the same
first-found rule (`mergeNested`). Finally html wins over plain
(`selectBody`). -/
def get_body_text : Payload → Nat → Nat → String × Bool
  | .node mt bd parts, depth, maxDepth =>
    if depth > maxDepth then (tooComplexSentinel, false)
    else
      selectBody
        (match parts with
         | some ps => get_body_parts ps depth maxDepth (case1Pair mt bd).1 (case1Pair mt bd).2
         | none => case1Pair mt bd)

/-- The `for part in payload["parts"]` loop of `_get_body_text`, carrying the
`plain_text` and `html_text` accumulators. -/
def get_body_parts : List Payload → Nat → Nat → Option String → Option String →
    Option String × Option String
  | [], _, _, plain, html => (plain, html)
  | part :: rest, depth, maxDepth, plain, html =>
    let mtl := pyLower ((part.mime).getD "")
    let hasData := optTruthy part.bodyData
    if mtl = "text/plain" ∧ hasData then
      get_body_parts rest depth maxDepth
        (if plain = none then some (decode_base64 (part.bodyData.getD "")) else plain) html
    else if mtl = "text/html" ∧ hasData then
      get_body_parts rest depth maxDepth plain
        (if html = none then some (decode_base64 (part.bodyData.getD "")) else html)
    else if part.subparts.isSome ∨ pyStarts mtl "multipart/" then
      get_body_parts rest depth maxDepth
        (mergeNested (get_body_text part (depth + 1) maxDepth) plain html).1
        (mergeNested (get_body_text part (depth + 1) maxDepth) plain html).2
    else get_body_parts rest depth maxDepth plain html

end

mutual

/-- The html slot of `_get_body_text` in isolation: which branch of the part
loop runs depends only on the part itself, never on the accumulators, so the
`html_text` accumulator evolves independently of `plain_text`. This function
computes its final value — the first-found html candidate. It is `none`
beyond the depth guard, because the guard's sentinel is merged as plain
text. -/
def htmlCandidate : Payload → Nat → Nat → Option String
  | .node mt bd parts, depth, maxDepth =>
    if depth > maxDepth then none
    else
      match parts with
      | some ps => htmlCandidateParts ps depth maxDepth (case1Pair mt bd).2
      | none => (case1Pair mt bd).2

/-- The html-slot projection of the part loop. -/
def htmlCandidateParts : List Payload → Nat → Nat → Option String → Option String
  | [], _, _, html => html
  | part :: rest, depth, maxDepth, html =>
    let mtl := pyLower ((part.mime).getD "")
    let hasData := optTruthy part.bodyData
    if mtl = "text/plain" ∧ hasData then
      htmlCandidateParts rest depth maxDepth html
    else if mtl = "text/html" ∧ hasData then
      htmlCandidateParts rest depth maxDepth
        (if html = none then some (decode_base64 (part.bodyData.getD "")) else html)
    else if part.subparts.isSome ∨ pyStarts mtl "multipart/" then
      htmlCandidateParts rest depth maxDepth
        (mergeNested (get_body_text part (depth + 1) maxDepth) none html).2
    else htmlCandidateParts rest depth maxDepth html

end

/-! ## `get_multiple_messages_metadata` (gmail_api_service.py)

The batch request registers one sub-request per valid (truthy string) message
id and the Gmail batch client later invokes `_batch_callback(request_id,
response, exception)` once per registered sub-request. The remote behaviour is
modelled by an environment function giving each identifier's callback
arguments: either an exception, or a response that is `None` or a parsed
message resource. Callbacks only write `metadata_results[request_id]`, so the
model fires them in registration order. -/

inductive BatchOutcome where
  | exn
  | ok (response : Option (List (Option String × Option String) × List String))
deriving Repr, DecidableEq

/-- The metadata record built by `_batch_callback` for one message. -/
structure MessageMetadata where
  id : String
  subject : String
  fromAddr : String
  date : String
  labelIds : List String
deriving Repr, DecidableEq

/-- The generator `next((h["value"] for h in headers if h["name"].lower() ==
key), default)`: walk the raw header dicts in order; accessing a missing
`name` or `value` key raises `KeyError` (`Except.error`), and the first
matching header's value is returned, `none` when no header matches. -/
def firstHeaderValue : List (Option String × Option String) → String → Except Unit (Option String)
  | [], _ => .ok none
  | (name?, value?) :: t, key =>
    match name? with
    | none => .error ()
    | some n =>
      if pyLower n = key then
        match value? with
        | none => .error ()
        | some v => .ok (some v)
      else firstHeaderValue t key

/-- The successful-response half of `_batch_callback`: extract subject, from
and date case-insensitively with their fixed placeholders, and the label ids
verbatim. Any exception during parsing is caught by the callback. -/
def parseBatchMetadata (request_id : String)
    (headers : List (Option String × Option String)) (labelIds : List String) :
    Except Unit MessageMetadata := do
  let subject ← firstHeaderValue headers "subject"
  let fromA ← firstHeaderValue headers "from"
  let dateS ← firstHeaderValue headers "date"
  .ok { id := request_id
        subject := subject.getD "(No subject)"
        fromAddr := fromA.getD "(Unknown sender)"
        date := dateS.getD "(Unknown date)"
        labelIds := labelIds }

/-- `_batch_callback` for one identifier: an exception or a `None` response
marks the identifier failed (`none`); a parse error is caught and also marks
it failed; otherwise the parsed metadata is stored. -/
def batch_callback (env : String → BatchOutcome) (request_id : String) :
    Option MessageMetadata :=
  match env request_id with
  | .exn => none
  | .ok none => none
  | .ok (some (headers, labelIds)) =>
    match parseBatchMetadata request_id headers labelIds with
    | .error _ => none
    | .ok m => some m

/-- `get_multiple_messages_metadata(message_ids)`: empty input short-circuits
to an empty dict; otherwise each truthy id is registered (falsy ids are
skipped with a warning) and its callback writes the per-id result into the
result dict keyed by the id. -/
def get_multiple_messages_metadata (env : String → BatchOutcome) (message_ids : List String) :
    List (String × Option MessageMetadata) :=
  if message_ids = [] then []
  else
    (message_ids.filter (fun i => i ≠ "")).foldl
      (fun acc i => dictInsert acc i (batch_callback env i)) []

/-- The chunk partition of the route's metadata loop (`emails.py`):
`message_ids[i : i + size]` for `i = 0, size, 2*size, ...`. The source uses
`METADATA_BATCH_CHUNK_SIZE = 15`; the definition keeps the size abstract
(Python's `range` would reject a zero step, so the model returns no chunks
then). -/
def chunkList {α : Type} : List α → Nat → List (List α)
  | _, 0 => []
  | [], _ + 1 => []
  | x :: xs, size + 1 =>
      (x :: xs).take (size + 1) :: chunkList ((x :: xs).drop (size + 1)) (size + 1)
termination_by l _ => l.length
decreasing_by
  simp
  omega

/-! ## `get_message_details` (gmail_api_service.py)

The raw `format="full"` message resource, as the remote returns it. The
resource carries an `internalDate` field; `get_message_details` never copies
it into the details dict it builds. -/

structure RawFullMessage where
  internalDate : String
  headers : List (String × String)
  payload : Payload
  threadId : String
deriving Repr

/-- The details dict built by `get_message_details` (its exact key set:
id, subject, from, to, date, body, is_html, thread_id, message_id,
references, in_reply_to). -/
structure MessageDetails where
  id : String
  subject : String
  fromAddr : String
  toAddr : String
  date : String
  body : String
  isHtml : Bool
  threadId : String
  messageIdHeader : String
  references : List String
  inReplyTo : String
deriving Repr, DecidableEq

/-- Python `details.get(key, default)` on the details dict, for string-valued
keys. The dict's key set is fixed by construction, so any other key (in
particular `"internalDate"`, the sort key used by the suggestions route)
yields the default. -/
def detailsGet (d : MessageDetails) (key dflt : String) : String :=
  if key = "id" then d.id
  else if key = "subject" then d.subject
  else if key = "from" then d.fromAddr
  else if key = "to" then d.toAddr
  else if key = "date" then d.date
  else if key = "body" then d.body
  else if key = "thread_id" then d.threadId
  else if key = "message_id" then d.messageIdHeader
  else if key = "in_reply_to" then d.inReplyTo
  else dflt

/-- `_extract_message_id_header(headers)`: `Message-ID` falling back to
`Message-Id`, wrapped in angle brackets when non-empty and not already
wrapped. -/
def extract_message_id_header (hdict : List (String × String)) : String :=
  let mid := (dictFind hdict "Message-ID").getD ((dictFind hdict "Message-Id").getD "")
  if mid ≠ "" ∧ ¬(pyStarts mid "<" ∧ pyEnds mid ">") then "<" ++ mid ++ ">" else mid

/-- `_extract_references_header(headers)`: whitespace-split the `References`
header value. -/
def extract_references_header (hdict : List (String × String)) : List String :=
  let refs := (dictFind hdict "References").getD ""
  if refs ≠ "" then pySplitWs refs else []

/-- `get_message_details(message_id)` applied to a fetched raw resource:
build the header dict (later duplicates overwrite earlier ones), decode the
body via `_get_body_text`, and assemble the details dict. `internalDate` is
not among the assembled keys. -/
def get_message_details (raw : RawFullMessage) (message_id : String) : MessageDetails :=
  let hdict := raw.headers.foldl (fun m kv => dictInsert m kv.1 kv.2) []
  let bodyPair := get_body_text raw.payload 0 10
  { id := message_id
    subject := (dictFind hdict "Subject").getD "(No subject)"
    fromAddr := (dictFind hdict "From").getD "(Unknown sender)"
    toAddr := (dictFind hdict "To").getD "(Unknown recipient)"
    date := (dictFind hdict "Date").getD "(Unknown date)"
    body := bodyPair.1
    isHtml := bodyPair.2
    threadId := raw.threadId
    messageIdHeader := extract_message_id_header hdict
    references := extract_references_header hdict
    inReplyTo := (dictFind hdict "In-Reply-To").getD "" }

/-! ## The suggestions route (emails.py): thread context and self-reply -/

/-- The mail-service environment seen by the suggestions route:
`get_user_email()` (`None` on failure), `list_messages(thread_id=...)`
(a possibly empty id list), and per-id `get_message_details` raw fetches
(`Except.error` models the exception that the route logs and skips). -/
structure GmailEnv where
  userEmail : Option String
  threadListing : String → List String
  fetchRaw : String → Except Unit RawFullMessage

/-- Lexicographic code-point comparison of character lists (Python string
`<=`). -/
def charListLe : List Char → List Char → Bool
  | [], _ => true
  | _ :: _, [] => false
  | a :: as, b :: bs =>
    if a.toNat < b.toNat then true
    else if b.toNat < a.toNat then false
    else charListLe as bs

/-- Python string `<=`, used when ordering sort keys. -/
def pyStrLe (a b : String) : Bool := charListLe a.data b.data

/-- A stable insertion into a sorted list, placing the new element before the
first element with a key not smaller than its own. -/
def insertByKey {α : Type} (key : α → String) (x : α) : List α → List α
  | [] => [x]
  | y :: t => if pyStrLe (key x) (key y) then x :: y :: t else y :: insertByKey key x t

/-- Python's stable `list.sort(key=...)` (elements processed from the right,
each inserted before the first element of equal or larger key, so elements
with equal keys keep their original relative order). -/
def pySortByKey {α : Type} (key : α → String) (l : List α) : List α :=
  l.foldr (insertByKey key) []

/-- The fetched-and-sorted thread details of the suggestions route: fetch full
details for every id in the thread (a failed fetch is logged and skipped),
then `details_list.sort(key=lambda x: x.get("internalDate", "0"))`. -/
def sortedThreadDetails (env : GmailEnv) (details : MessageDetails) : List MessageDetails :=
  let ids := env.threadListing details.threadId
  let dl := ids.foldl
    (fun acc i =>
      match env.fetchRaw i with
      | .ok raw => acc ++ [get_message_details raw i]
      | .error _ => acc) []
  pySortByKey (fun d => detailsGet d "internalDate" "0") dl

/-- The per-context-message block of the thread context: truncate the body at
500 characters with an explicit marker, tag the sender `You` when the user's
address occurs in the `from` field, and format the numbered block. -/
def contextBlock (userEmail : Option String) (i : Nat) (msg : MessageDetails) : String :=
  let body := msg.body
  let body := if pyLen body > 500 then pySlice body 0 500 ++ "... [message truncated]" else body
  let senderType :=
    if optTruthy userEmail ∧ pyIn (userEmail.getD "") msg.fromAddr then "You" else "Other party"
  "------- Message " ++ toString (i + 1) ++ " -------\n" ++
    "From: " ++ msg.fromAddr ++ " (" ++ senderType ++ ")\n" ++ body ++ "\n\n"

/-- The thread-context construction of the suggestions route (`emails.py`,
`get_suggestions`): the context stays `""` unless the message declares a
truthy `in_reply_to`, has a truthy `thread_id`, the thread listing is
non-empty, and the current message sits at a positive index of the sorted
details list; then up to the two immediately preceding messages are formatted
under a fixed header line. -/
def buildThreadContext (env : GmailEnv) (details : MessageDetails) (message_id : String) :
    String :=
  if details.inReplyTo = "" then ""
  else if details.threadId = "" then ""
  else if env.threadListing details.threadId = [] then ""
  else
    let sorted := sortedThreadDetails env details
    match sorted.findIdx? (fun d => d.id = message_id) with
    | none => ""
    | some idx =>
      if idx = 0 then ""
      else
        let ctxMsgs := (sorted.take idx).drop (idx - 2)
        ctxMsgs.enum.foldl (fun acc p => acc ++ contextBlock env.userEmail p.1 p.2)
          "Previous messages in this conversation:\n\n"

/-- The fixed self-reply suggestion set of the route. -/
def selfReplySuggestions : List String :=
  ["Did you mean to add more information to your previous message?",
   "Replying to your own message in a thread. Continue here or reply to " ++
     "the last message from the other party?",
   "Forward this thread?"]

/-- The suggestion-producing tail of the route, given the fetched details:
build the thread context when the message is a reply, then either
short-circuit to the fixed self-reply suggestions (when `user_email` is
truthy and occurs in the current message's `from`), or call the generation
client (with context for replies, standalone otherwise). The boolean records
whether the generation client was invoked. -/
def routeSuggestions (env : GmailEnv)
    (llmPlain : String → Except Unit (List String))
    (llmCtx : String → String → Bool → Except Unit (List String))
    (details : MessageDetails) (message_id : String) :
    Except Unit (List String) × Bool :=
  let isReply := details.inReplyTo ≠ ""
  let threadContext := buildThreadContext env details message_id
  if isReply then
    if optTruthy env.userEmail ∧ pyIn (env.userEmail.getD "") details.fromAddr then
      (.ok selfReplySuggestions, false)
    else
      (llmCtx details.body threadContext isReply, true)
  else
    (llmPlain details.body, true)

/-! ## `_parse_suggestions` (local_llm_service.py) -/

/-- The test `line[0].isdigit() and ((len(line) > 1 and line[1] == ".") or
(len(line) > 2 and line[1:3] == ". "))` for a numbered line. -/
def numberedLineTest (line : String) : Bool :=
  line ≠ "" ∧ (line.data.headD ' ').isDigit ∧
    ((pyLen line > 1 ∧ pySlice line 1 2 = ".") ∨ (pyLen line > 2 ∧ pySlice line 1 3 = ". "))

/-- One iteration of the numbered-suggestion scan. State: the collected
suggestions, the suggestion being accumulated, and the `in_numbered_list`
flag. A blank line is skipped; a numbered line flushes the current suggestion
and starts a new one from the text after the numbering; any other line, when
inside a numbered list and the current suggestion is non-empty, is appended
(space-joined unless the suggestion already ends in terminal punctuation). -/
def numberedStep (st : List String × String × Bool) (rawLine : String) :
    List String × String × Bool :=
  let line := pyStrip rawLine
  if line = "" then st
  else
    let sugg := st.1
    let cur := st.2.1
    let inNum := st.2.2
    if numberedLineTest line then
      let sugg' := if cur ≠ "" then sugg ++ [pyStrip cur] else sugg
      let cur' :=
        if pyLen line > 1 ∧ pySlice line 1 2 = "." then pyStrip (pySliceFrom line 2)
        else if pyLen line > 3 then pyStrip (pySliceFrom line 3)
        else ""
      (sugg', cur', true)
    else if inNum then
      if cur ≠ "" then
        let cur' :=
          if ¬((cur.data.getLastD ' ') ∈ ['.', ',', ':', ';', '!', '?']) then cur ++ " " ++ line
          else cur ++ line
        (sugg, cur', inNum)
      else (sugg, cur, inNum)
    else (sugg, cur, inNum)

/-- The primary (numbered-list) parsing strategy over the stripped lines,
including the final flush of the pending suggestion. -/
def numberedSuggestions (lines : List String) : List String :=
  let st := lines.foldl numberedStep ([], "", false)
  if st.2.1 ≠ "" then st.1 ++ [pyStrip st.2.1] else st.1

/-- A line the fallback strategy skips as a role label. -/
def roleLabelLine (line : String) : Bool :=
  pyStarts (pyLower line) "system:" ∨ pyStarts (pyLower line) "user:" ∨
    pyStarts (pyLower line) "assistant:"

/-- The fallback strategy: take lines that are non-blank, not role labels, at
least 10 characters and not metadata (`suggestion`/`reply` prefixed),
stopping after three. -/
def fallbackScan : List String → List String → List String
  | [], acc => acc
  | rawLine :: rest, acc =>
    let line := pyStrip rawLine
    if line = "" ∨ roleLabelLine line then fallbackScan rest acc
    else if pyLen line < 10 ∨ pyStarts (pyLower line) "suggestion" ∨
        pyStarts (pyLower line) "reply" then fallbackScan rest acc
    else
      let acc' := acc ++ [line]
      if acc'.length ≥ 3 then acc' else fallbackScan rest acc'

/-- The quality post-filter: strip a leading `N. ` / `N.)` numbering artifact,
drop entries under 10 characters and entries that read as instructions. -/
def filterStep (acc : List String) (s0 : String) : List String :=
  let s :=
    if s0 ≠ "" ∧ (s0.data.headD ' ').isDigit ∧
        (pySlice s0 1 3 = ". " ∨ pySlice s0 1 3 = ".)") then
      pyStrip (pySliceFrom s0 3)
    else s0
  if pyLen s < 10 then acc
  else if pyStarts (pyLower s) "suggest" ∨ pyStarts (pyLower s) "you could" then acc
  else acc ++ [s]

/-- The fixed fallback suggestion list substituted when filtering empties the
result. -/
def fallbackSuggestions : List String :=
  ["I'll review this and get back to you soon.",
   "Thanks for your email. Let me think about this.",
   "I've received your message and will respond shortly."]

/-- `_parse_suggestions(raw_response)`: empty input yields `[]`; otherwise the
stripped input is split into lines, the numbered strategy is tried first and
its result returned unfiltered when non-empty; else the fallback line scan
runs, the post-filter is applied to it, and the fixed fallback list stands in
when the filtered result is empty. -/
def parse_suggestions (raw_response : String) : List String :=
  if raw_response = "" then []
  else
    let lines := pySplitLines (pyStrip raw_response)
    let numbered := numberedSuggestions lines
    if numbered ≠ [] then numbered
    else
      let fb := fallbackScan lines []
      let filtered := fb.foldl filterStep []
      if filtered = [] then fallbackSuggestions else filtered

/-! ## The retry loop of `get_suggestions` / `get_suggestions_with_context`
(local_llm_service.py)

One attempt's interaction with the generation backend, as seen through the
`requests` calls: either the POST raises one of the caught exception classes,
or it succeeds and `response_data.get("response", "")` yields a raw response
string (a missing `response` field is already folded into `""`). Both client
methods run the identical `for attempt in range(1, max_retries + 1)` loop
over this outcome. -/

inductive AttemptOutcome where
  | connectionError
  | timeout
  | httpError
  | requestError
  | otherError
  | success (rawResponse : String)
deriving Repr, DecidableEq

/-- The error classification raised once retries are exhausted. -/
inductive LlmError where
  | badRequest
  | notReachable
  | timedOut
  | httpFailure
  | requestFailure
  | otherFailure
  | emptyResponse
  | exhausted
deriving Repr, DecidableEq

/-- Map a failing attempt outcome to the error raised on the final attempt. -/
def classifyFailure : AttemptOutcome → LlmError
  | .connectionError => .notReachable
  | .timeout => .timedOut
  | .httpError => .httpFailure
  | .requestError => .requestFailure
  | _ => .otherFailure

instance exceptDecEq {ε α : Type} [DecidableEq ε] [DecidableEq α] :
    DecidableEq (Except ε α)
  | .error e, .error e' =>
    if h : e = e' then .isTrue (by rw [h]) else .isFalse (by simp [h])
  | .error _, .ok _ => .isFalse (by simp)
  | .ok _, .error _ => .isFalse (by simp)
  | .ok a, .ok a' =>
    if h : a = a' then .isTrue (by rw [h]) else .isFalse (by simp [h])

/-- The result of a whole client call: the returned suggestions or the raised
error, together with how many times `time.sleep(retry_delay)` ran. -/
structure ClientRun where
  result : Except LlmError (List String)
  sleeps : Nat
deriving Repr, DecidableEq

/-- The body of `for attempt in range(1, max_retries + 1)`, driven by the
number of loop iterations still available (`remaining`, which starts at
`max_retries` and always equals `max_retries + 1 - attempt`): a successful
request whose parsed suggestions are non-empty returns them; an empty parse
or a caught exception sleeps and retries while `attempt < max_retries`, and
raises on the final attempt. An exhausted loop falls through to the
`raise OllamaError("Unexpected error: ...")` after the loop. -/
def attemptLoop (outcome : Nat → AttemptOutcome) (max_retries : Nat) :
    Nat → Nat → Nat → ClientRun
  | 0, _, sleeps => ⟨.error .exhausted, sleeps⟩
  | remaining + 1, attempt, sleeps =>
    match outcome attempt with
    | .success raw =>
      let suggestions := parse_suggestions raw
      if suggestions = [] then
        if attempt < max_retries then
          attemptLoop outcome max_retries remaining (attempt + 1) (sleeps + 1)
        else ⟨.error .emptyResponse, sleeps⟩
      else ⟨.ok suggestions, sleeps⟩
    | o =>
      if attempt < max_retries then
        attemptLoop outcome max_retries remaining (attempt + 1) (sleeps + 1)
      else ⟨.error (classifyFailure o), sleeps⟩

/-- `get_suggestions(email_body)` (and identically the retry portion of
`get_suggestions_with_context`): an empty body raises the bad-request error
before any attempt; otherwise the loop starts at attempt 1 with no sleeps
taken and `max_retries` iterations available. Prompt construction and body
truncation do not influence the modelled outcome stream. -/
def get_suggestions (outcome : Nat → AttemptOutcome) (max_retries : Nat)
    (email_body : String) : ClientRun :=
  if email_body = "" then ⟨.error .badRequest, 0⟩
  else attemptLoop outcome max_retries max_retries 1 0

/-- `_truncate_email(email_body, max_chars=4000)`. -/
def truncate_email (email_body : String) (max_chars : Nat := 4000) : String :=
  if pyLen email_body ≤ max_chars then email_body
  else pySlice email_body 0 max_chars ++ "\n\n[Email truncated due to length...]"

/-! ## Auxiliary definitions used by the statements below -/

/-- The transient failures of §4.4: the `requests` exception classes caught by
the retry loop that denote a network, timeout or HTTP error (the generic
`Exception` handler is kept distinct, as the spec's transient class names
network/timeout/HTTP errors). -/
def isTransientFailure : AttemptOutcome → Bool
  | .connectionError => true
  | .timeout => true
  | .httpError => true
  | .requestError => true
  | _ => false

/-- A `text/plain` leaf part with inline data. -/
def plainLeaf (d : String) : Payload := .node (some "text/plain") (some d) none

/-- A `text/html` leaf part with inline data. -/
def htmlLeaf (d : String) : Payload := .node (some "text/html") (some d) none

/-- A chain of `n + 1` nested `multipart/mixed` containers with a plain-text
leaf (data `"aGk"`, i.e. `hi`) at the bottom: `deepChain n` nests containers
at depths `0..n`, the leaf sitting inside the innermost container. -/
def deepChain : Nat → Payload
  | 0 => .node (some "multipart/mixed") none (some [plainLeaf "aGk"])
  | n + 1 => .node (some "multipart/mixed") none (some [deepChain n])

/-- A payload holding a shallow html leaf next to a container chain whose
nesting exceeds the recursion bound. -/
def shallowHtmlDeepChain : Payload :=
  .node (some "multipart/mixed") none (some [htmlLeaf "aGk", deepChain 11])

/-- A payload with a plain leaf and an html leaf whose inline data `"="`
decodes to the empty string. -/
def plainAndEmptyHtml : Payload :=
  .node (some "multipart/alternative") none (some [plainLeaf "aGk", htmlLeaf "="])

/-- The attempt-outcome stream used to witness the retry behaviour: transient
timeouts on attempts 1 and 2, then a parseable success. -/
def retryWitnessOutcome : Nat → AttemptOutcome := fun n =>
  if n ≤ 2 then .timeout
  else .success "1. Call them back\n2. Send a follow-up email\n3. Decline politely"

/-- A backend response carrying four numbered suggestions. -/
def fourSuggestionResponse : String :=
  "1. aaaaaaaaaaaa\n2. bbbbbbbbbbbb\n3. cccccccccccc\n4. dddddddddddd"

/-- A batch environment whose every callback carries an exception. -/
def allExnEnv : String → BatchOutcome := fun _ => .exn

/-- A batch environment failing exactly the identifier `"a"`, every other
identifier resolving to a parseable response. -/
def oneFailureEnv : String → BatchOutcome := fun i =>
  if i = "a" then .exn
  else .ok (some ([(some "Subject", some "Hello"), (some "From", some "x@y")], ["INBOX"]))

/-- A raw full message dated later (`internalDate "2000"`). -/
def rawLater : RawFullMessage :=
  { internalDate := "2000"
    headers := [("From", "alice@example.com")]
    payload := plainLeaf "aGk"
    threadId := "t1" }

/-- A raw full message dated earlier (`internalDate "1000"`). -/
def rawEarlier : RawFullMessage :=
  { internalDate := "1000"
    headers := [("From", "bob@example.com")]
    payload := plainLeaf "aGk"
    threadId := "t1" }

/-- A mail environment listing thread `t1` as `[m1, m2]` where `m1` is the
later-dated message and `m2` the earlier-dated one. -/
def outOfOrderThreadEnv : GmailEnv :=
  { userEmail := some "me@example.com"
    threadListing := fun t => if t = "t1" then ["m1", "m2"] else []
    fetchRaw := fun i =>
      if i = "m1" then .ok rawLater
      else if i = "m2" then .ok rawEarlier
      else .error () }

/-- Details of a reply message in thread `t1` whose `from` field contains the
authenticated user's address. -/
def selfReplyDetails : MessageDetails :=
  { id := "m3"
    subject := "Re: hello"
    fromAddr := "Me <me@example.com>"
    toAddr := "bob@example.com"
    date := "Mon, 1 Jan 2024 00:00:00 +0000"
    body := "hi"
    isHtml := false
    threadId := "t1"
    messageIdHeader := "<m3@example.com>"
    references := []
    inReplyTo := "<m2@example.com>" }

/-- Details of a message that is not a reply. -/
def standaloneDetails : MessageDetails :=
  { id := "m9"
    subject := "hello"
    fromAddr := "bob@example.com"
    toAddr := "me@example.com"
    date := "Mon, 1 Jan 2024 00:00:00 +0000"
    body := "hi"
    isHtml := false
    threadId := ""
    messageIdHeader := "<m9@example.com>"
    references := []
    inReplyTo := "" }

/-! ## Shared lemmas about the dict model -/

/-- Looking a key up after a dict assignment. -/
theorem dictFind_insert {α : Type} (m : List (String × α)) (k : String) (v : α) (j : String) :
    dictFind (dictInsert m k v) j = if j = k then some v else dictFind m j := by
  induction m with
  | nil =>
    simp only [dictInsert, dictFind]
    by_cases h : j = k
    · rw [if_pos h.symm, if_pos h]
    · rw [if_neg (fun hkj => h hkj.symm), if_neg h]
  | cons hd t ih =>
    obtain ⟨k', v'⟩ := hd
    simp only [dictInsert]
    by_cases hk : k' = k
    · subst hk
      rw [if_pos rfl]
      simp only [dictFind]
      by_cases hj : j = k'
      · subst hj
        simp
      · rw [if_neg (fun h : k' = j => hj h.symm), if_neg hj,
          if_neg (fun h : k' = j => hj h.symm)]
    · rw [if_neg hk]
      simp only [dictFind]
      by_cases hj' : k' = j
      · have hjk : ¬(j = k) := fun h => hk (hj'.trans h)
        rw [if_pos hj', if_neg hjk, if_pos hj']
      · simp only [if_neg hj', ih]

/-- The key view of a dict cons cell. -/
theorem dictKeys_cons {α : Type} (a : String) (b : α) (l : List (String × α)) :
    dictKeys ((a, b) :: l) = a :: dictKeys l := rfl

/-- Updating an existing head key rewrites the head entry in place. -/
theorem dictInsert_cons_self {α : Type} (k : String) (v v' : α) (t : List (String × α)) :
    dictInsert ((k, v') :: t) k v = (k, v) :: t := by
  simp [dictInsert]

/-- Inserting under a different head key keeps the head entry. -/
theorem dictInsert_cons_ne {α : Type} (k k' : String) (v v' : α) (t : List (String × α))
    (h : k' ≠ k) : dictInsert ((k', v') :: t) k v = (k', v') :: dictInsert t k v := by
  simp [dictInsert, h]

/-- Key membership after a dict assignment. -/
theorem dictKeys_insert_mem {α : Type} (m : List (String × α)) (k : String) (v : α)
    (j : String) : j ∈ dictKeys (dictInsert m k v) ↔ j = k ∨ j ∈ dictKeys m := by
  induction m with
  | nil => simp [dictInsert, dictKeys]
  | cons hd t ih =>
    obtain ⟨k', v'⟩ := hd
    by_cases hk : k' = k
    · subst hk
      rw [dictInsert_cons_self, dictKeys_cons, dictKeys_cons]
      simp only [List.mem_cons]
      tauto
    · rw [dictInsert_cons_ne _ _ _ _ _ hk, dictKeys_cons, dictKeys_cons]
      simp only [List.mem_cons, ih]
      tauto

/-- A dict assignment preserves key distinctness. -/
theorem dictKeys_insert_nodup {α : Type} (m : List (String × α)) (k : String) (v : α)
    (h : (dictKeys m).Nodup) : (dictKeys (dictInsert m k v)).Nodup := by
  induction m with
  | nil => simp [dictInsert, dictKeys]
  | cons hd t ih =>
    obtain ⟨k', v'⟩ := hd
    rw [dictKeys_cons, List.nodup_cons] at h
    by_cases hk : k' = k
    · subst hk
      rw [dictInsert_cons_self, dictKeys_cons, List.nodup_cons]
      exact h
    · rw [dictInsert_cons_ne _ _ _ _ _ hk, dictKeys_cons, List.nodup_cons]
      refine ⟨fun hmem => ?_, ih h.2⟩
      rcases (dictKeys_insert_mem t k v k').mp hmem with h1 | h2
      · exact hk h1
      · exact h.1 h2

/-- Looking up any key after folding per-key insertions over a list: keys from
the list get their computed value (duplicates collapse, since every insertion
for the same key writes the same value), others fall through to the
accumulator. -/
theorem dictFind_fold_insert {α : Type} (f : String → α) :
    ∀ (l : List String) (acc : List (String × α)) (j : String),
    dictFind (l.foldl (fun a i => dictInsert a i (f i)) acc) j
      = if j ∈ l then some (f j) else dictFind acc j := by
  intro l
  induction l with
  | nil =>
    intro acc j
    simp
  | cons i t ih =>
    intro acc j
    rw [List.foldl_cons, ih]
    by_cases hjt : j ∈ t
    · rw [if_pos hjt, if_pos (List.mem_cons_of_mem i hjt)]
    · rw [if_neg hjt, dictFind_insert]
      by_cases hji : j = i
      · subst hji
        rw [if_pos rfl, if_pos (by simp)]
      · rw [if_neg hji, if_neg (by simp [hji, hjt])]

/-- Key membership after folding per-key insertions over a list. -/
theorem dictKeys_fold_insert_mem {α : Type} (f : String → α) :
    ∀ (l : List String) (acc : List (String × α)) (j : String),
    (j ∈ dictKeys (l.foldl (fun a i => dictInsert a i (f i)) acc)
      ↔ j ∈ l ∨ j ∈ dictKeys acc) := by
  intro l
  induction l with
  | nil =>
    intro acc j
    simp
  | cons i t ih =>
    intro acc j
    rw [List.foldl_cons, ih, dictKeys_insert_mem]
    simp only [List.mem_cons]
    tauto

/-- Folding per-key insertions preserves key distinctness. -/
theorem dictKeys_fold_insert_nodup {α : Type} (f : String → α) :
    ∀ (l : List String) (acc : List (String × α)),
    (dictKeys acc).Nodup → (dictKeys (l.foldl (fun a i => dictInsert a i (f i)) acc)).Nodup := by
  intro l
  induction l with
  | nil =>
    intro acc h
    simpa using h
  | cons i t ih =>
    intro acc h
    rw [List.foldl_cons]
    exact ih _ (dictKeys_insert_nodup _ _ _ h)

/-- Chunks of any positive size partition the input list in order. -/
theorem chunkList_flatten_aux {α : Type} :
    ∀ (n : Nat) (l : List α) (size : Nat), l.length ≤ n → size ≠ 0 →
    (chunkList l size).flatten = l := by
  intro n
  induction n with
  | zero =>
    intro l size hl hs
    have hnil : l = [] := List.eq_nil_of_length_eq_zero (Nat.le_zero.mp hl)
    subst hnil
    cases size with
    | zero => exact absurd rfl hs
    | succ m => simp [chunkList]
  | succ n ih =>
    intro l size hl hs
    cases size with
    | zero => exact absurd rfl hs
    | succ m =>
      cases l with
      | nil => simp [chunkList]
      | cons x xs =>
        have hlen : ((x :: xs).drop (m + 1)).length ≤ n := by
          simp only [List.length_drop, List.length_cons]
          simp only [List.length_cons] at hl
          omega
        simp only [chunkList, List.flatten_cons]
        rw [ih _ _ hlen hs, List.take_append_drop]

/-! ## Suggestion-client theorems -/

/-- One retrying step of the loop: a transient failure before the final
attempt sleeps once and moves to the next attempt. -/
theorem attemptLoop_retry_step (o : Nat → AttemptOutcome) (m rem a s : Nat)
    (hfail : isTransientFailure (o a) = true) (hlt : a < m) :
    attemptLoop o m (rem + 1) a s = attemptLoop o m rem (a + 1) (s + 1) := by
  cases ho : o a <;> simp [attemptLoop, ho, hlt, isTransientFailure] at hfail ⊢

/-- A successful attempt with a non-empty parse returns it at once. -/
theorem attemptLoop_success_now (o : Nat → AttemptOutcome) (m rem a s : Nat) (r : String)
    (ho : o a = .success r) (hr : parse_suggestions r ≠ []) :
    attemptLoop o m (rem + 1) a s = ⟨.ok (parse_suggestions r), s⟩ := by
  simp [attemptLoop, ho, hr]

/-- A transient failure at the final attempt raises, without sleeping again. -/
theorem attemptLoop_fail_last (o : Nat → AttemptOutcome) (m rem a s : Nat)
    (hfail : isTransientFailure (o a) = true) (hge : ¬a < m) :
    attemptLoop o m (rem + 1) a s = ⟨.error (classifyFailure (o a)), s⟩ := by
  cases ho : o a <;>
    simp [attemptLoop, ho, hge, isTransientFailure, classifyFailure] at hfail ⊢

/-- C5: with `max_retries = 3`, transient failures on attempts 1 and 2
followed by a success whose output parses non-empty return attempt 3's parsed
suggestions having slept exactly twice; and the same transient failures on
all three attempts raise the per-class error, still with exactly two sleeps
(no sleep after the final attempt). -/
theorem get_suggestions_retries_transient (o : Nat → AttemptOutcome) (r body : String)
    (h1 : isTransientFailure (o 1) = true) (h2 : isTransientFailure (o 2) = true)
    (h3 : o 3 = .success r) (hr : parse_suggestions r ≠ []) (hb : body ≠ "") :
    get_suggestions o 3 body = ⟨.ok (parse_suggestions r), 2⟩
    ∧ ∀ o' : Nat → AttemptOutcome, isTransientFailure (o' 1) = true →
        isTransientFailure (o' 2) = true → isTransientFailure (o' 3) = true →
        get_suggestions o' 3 body = ⟨.error (classifyFailure (o' 3)), 2⟩ := by
  constructor
  · have e1 : attemptLoop o 3 3 1 0 = attemptLoop o 3 2 2 1 :=
      attemptLoop_retry_step o 3 2 1 0 h1 (by omega)
    have e2 : attemptLoop o 3 2 2 1 = attemptLoop o 3 1 3 2 :=
      attemptLoop_retry_step o 3 1 2 1 h2 (by omega)
    have e3 : attemptLoop o 3 1 3 2 = ⟨.ok (parse_suggestions r), 2⟩ :=
      attemptLoop_success_now o 3 0 3 2 r h3 hr
    simp only [get_suggestions, if_neg hb]
    exact e1.trans (e2.trans e3)
  · intro o' g1 g2 g3
    have e1 : attemptLoop o' 3 3 1 0 = attemptLoop o' 3 2 2 1 :=
      attemptLoop_retry_step o' 3 2 1 0 g1 (by omega)
    have e2 : attemptLoop o' 3 2 2 1 = attemptLoop o' 3 1 3 2 :=
      attemptLoop_retry_step o' 3 1 2 1 g2 (by omega)
    have e3 : attemptLoop o' 3 1 3 2 = ⟨.error (classifyFailure (o' 3)), 2⟩ :=
      attemptLoop_fail_last o' 3 0 3 2 g3 (by omega)
    simp only [get_suggestions, if_neg hb]
    exact e1.trans (e2.trans e3)

/-- Witness for C5 at a concrete outcome stream: two timeouts, then a
three-suggestion success, returning the parse with two sleeps. -/
theorem get_suggestions_retries_transient_witness :
    get_suggestions retryWitnessOutcome 3 "Hello"
      = ⟨.ok ["Call them back", "Send a follow-up email", "Decline politely"], 2⟩ := by
  have h := get_suggestions_retries_transient retryWitnessOutcome
    "1. Call them back\n2. Send a follow-up email\n3. Decline politely" "Hello"
    (by decide) (by decide) (by decide) (by decide) (by decide)
  exact h.1.trans (by decide)

/-- C10: `_parse_suggestions` returns the empty list exactly on the empty
string; every non-empty input yields a non-empty list (the numbered strategy
is returned only when non-empty, and the fallback path substitutes a fixed
3-item list when filtering empties it), so the empty-parse retry branch of
`get_suggestions` is reachable only on a literally empty response field. -/
theorem parse_suggestions_empty_iff (raw : String) :
    parse_suggestions raw = [] ↔ raw = "" := by
  constructor
  · intro h
    by_contra hne
    have hexp : parse_suggestions raw =
        (if numberedSuggestions (pySplitLines (pyStrip raw)) ≠ [] then
          numberedSuggestions (pySplitLines (pyStrip raw))
        else if (fallbackScan (pySplitLines (pyStrip raw)) []).foldl filterStep [] = [] then
          fallbackSuggestions
        else (fallbackScan (pySplitLines (pyStrip raw)) []).foldl filterStep []) := by
      simp [parse_suggestions, hne]
    rw [hexp] at h
    split_ifs at h with h1 h2
    · exact h1 h
    · simp [fallbackSuggestions] at h
    · exact h2 h
  · intro h
    simp [parse_suggestions, h]

/-- The loop only ever returns `ok` with the non-empty parse of some
attempt. -/
theorem attemptLoop_ok_ne (o : Nat → AttemptOutcome) (m : Nat) :
    ∀ (rem a s : Nat) (l : List String),
    (attemptLoop o m rem a s).result = .ok l → l ≠ [] := by
  intro rem
  induction rem with
  | zero =>
    intro a s l h
    simp [attemptLoop] at h
  | succ rem ih =>
    intro a s l h
    cases ho : o a
    case success r =>
      simp only [attemptLoop, ho] at h
      split_ifs at h with he hl
      · exact ih _ _ _ h
      · exact fun h0 => he ((Except.ok.inj h).trans h0)
    all_goals simp only [attemptLoop, ho] at h
    all_goals split_ifs at h with hl
    all_goals exact ih _ _ _ h

/-- C8 (amended): every successful client call returns at least one
suggestion; no upper bound of three holds (see the counterexample), because
the numbered-list strategy's output is returned uncapped and unfiltered. -/
theorem get_suggestions_at_least_one (o : Nat → AttemptOutcome) (m : Nat)
    (body : String) (l : List String)
    (h : (get_suggestions o m body).result = .ok l) : 1 ≤ l.length := by
  by_cases hb : body = ""
  · simp [get_suggestions, hb] at h
  · simp only [get_suggestions, if_neg hb] at h
    exact List.length_pos.mpr (attemptLoop_ok_ne o m m 1 0 l h)

/-- Witness for C8 at a concrete successful call. -/
theorem get_suggestions_at_least_one_witness :
    1 ≤ (["Call them back", "Send a follow-up email", "Decline politely"] : List String).length :=
  get_suggestions_at_least_one retryWitnessOutcome 3 "Hello"
    ["Call them back", "Send a follow-up email", "Decline politely"] (by decide)

/-- C8 counterexample: a backend response with four numbered lines makes a
successful call return four suggestions, refuting the at-most-three bound. -/
theorem get_suggestions_four_suggestions :
    (get_suggestions (fun _ => .success fourSuggestionResponse) 3 "body").result
      = .ok ["aaaaaaaaaaaa", "bbbbbbbbbbbb", "cccccccccccc", "dddddddddddd"]
    ∧ 3 < (["aaaaaaaaaaaa", "bbbbbbbbbbbb", "cccccccccccc", "dddddddddddd"] : List String).length :=
  ⟨by decide, by decide⟩

/-! ## Batch-metadata theorems -/

/-- C1 (amended): per batched call, the result's key set is exactly the set
of distinct truthy (non-empty) input identifiers — an empty-string identifier
is skipped as invalid and omitted (see the counterexample) — each key mapped
to either a populated record or `null` by construction; and chunks of any
size ≥ 1 partition the identifier list in order, so the chunked mode loses no
identifier either. -/
theorem get_multiple_messages_metadata_keys (env : String → BatchOutcome)
    (ids : List String) (size : Nat) (hs : 1 ≤ size) :
    (∀ k, k ∈ dictKeys (get_multiple_messages_metadata env ids) ↔ (k ∈ ids ∧ k ≠ ""))
    ∧ (dictKeys (get_multiple_messages_metadata env ids)).Nodup
    ∧ (chunkList ids size).flatten = ids := by
  refine ⟨fun k => ?_, ?_, ?_⟩
  · by_cases hnil : ids = []
    · subst hnil
      simp [get_multiple_messages_metadata, dictKeys]
    · simp only [get_multiple_messages_metadata, if_neg hnil]
      rw [dictKeys_fold_insert_mem (batch_callback env)]
      simp only [List.mem_filter, dictKeys, List.map_nil, List.not_mem_nil, or_false,
        decide_not]
      constructor
      · intro ⟨h1, h2⟩
        exact ⟨h1, by simpa using h2⟩
      · intro ⟨h1, h2⟩
        exact ⟨h1, by simpa using h2⟩
  · by_cases hnil : ids = []
    · subst hnil
      simp [get_multiple_messages_metadata, dictKeys]
    · simp only [get_multiple_messages_metadata, if_neg hnil]
      exact dictKeys_fold_insert_nodup _ _ _ (by simp [dictKeys])
  · exact chunkList_flatten_aux ids.length ids size le_rfl (by omega)

/-- Witness for C1 at a concrete identifier list with a duplicate and an
empty identifier, chunk size 15. -/
theorem get_multiple_messages_metadata_keys_witness :
    ("a" ∈ dictKeys (get_multiple_messages_metadata allExnEnv ["a", "b", "a", ""])
      ↔ ("a" ∈ ["a", "b", "a", ""] ∧ "a" ≠ ""))
    ∧ (dictKeys (get_multiple_messages_metadata allExnEnv ["a", "b", "a", ""])).Nodup
    ∧ (chunkList ["a", "b", "a", ""] 15).flatten = ["a", "b", "a", ""] := by
  obtain ⟨h1, h2, h3⟩ :=
    get_multiple_messages_metadata_keys allExnEnv ["a", "b", "a", ""] 15 (by decide)
  exact ⟨h1 "a", h2, h3⟩

/-- C1 counterexample: an input list containing the empty-string identifier
comes back with that identifier omitted from the mapping — the key set is not
the distinct input identifier set. -/
theorem get_multiple_messages_metadata_drops_empty_id :
    get_multiple_messages_metadata allExnEnv [""] = []
    ∧ ("" : String) ∈ ([""] : List String) :=
  ⟨by decide, by decide⟩

/-- C4: a failing identifier (callback exception, a `None` response, or a
response whose parsing raises) is mapped to `null`, and every identifier in
the batch — the failing one included — is mapped exactly to its own
callback's outcome, so one item's failure never disturbs the others. -/
theorem batch_item_failure_isolated (env : String → BatchOutcome) (ids : List String)
    (k : String) (hk : k ∈ ids) (hne : k ≠ "")
    (hfail : env k = .exn
      ∨ env k = .ok none
      ∨ ∃ hs ls, env k = .ok (some (hs, ls)) ∧ parseBatchMetadata k hs ls = .error ()) :
    dictFind (get_multiple_messages_metadata env ids) k = some none
    ∧ ∀ j, j ∈ ids → j ≠ "" →
        dictFind (get_multiple_messages_metadata env ids) j = some (batch_callback env j) := by
  have hnil : ids ≠ [] := by
    intro h
    subst h
    simp at hk
  have hmain : ∀ j, j ∈ ids → j ≠ "" →
      dictFind (get_multiple_messages_metadata env ids) j = some (batch_callback env j) := by
    intro j hj hjne
    simp only [get_multiple_messages_metadata, if_neg hnil]
    rw [dictFind_fold_insert (batch_callback env)]
    rw [if_pos (by simp [List.mem_filter, hj, hjne])]
  refine ⟨?_, hmain⟩
  rw [hmain k hk hne]
  have hcb : batch_callback env k = none := by
    rcases hfail with h | h | ⟨hs, ls, h, hp⟩
    · simp [batch_callback, h]
    · simp [batch_callback, h]
    · simp [batch_callback, h, hp]
  rw [hcb]

/-- Witness for C4: identifier `a` fails with an exception, identifier `b`
resolves to its parsed record in the same batch. -/
theorem batch_item_failure_isolated_witness :
    dictFind (get_multiple_messages_metadata oneFailureEnv ["a", "b"]) "a" = some none
    ∧ dictFind (get_multiple_messages_metadata oneFailureEnv ["a", "b"]) "b"
        = some (batch_callback oneFailureEnv "b")
    ∧ batch_callback oneFailureEnv "b"
        = some { id := "b", subject := "Hello", fromAddr := "x@y",
                 date := "(Unknown date)", labelIds := ["INBOX"] } := by
  obtain ⟨h1, h2⟩ := batch_item_failure_isolated oneFailureEnv ["a", "b"] "a"
    (by decide) (by decide) (Or.inl (by decide))
  exact ⟨h1, h2 "b" (by decide) (by decide), by decide⟩

/-! ## Suggestions-route theorems -/

/-- C6: when the message is a reply and the authenticated user's (truthy)
address occurs in its `from` field, the route returns the fixed three-item
self-reply suggestion set and never invokes the generation client — for every
mail environment and every pair of generation oracles. -/
theorem route_self_reply_short_circuit (env : GmailEnv)
    (llmPlain : String → Except Unit (List String))
    (llmCtx : String → String → Bool → Except Unit (List String))
    (details : MessageDetails) (message_id : String) (u : String)
    (h1 : details.inReplyTo ≠ "") (h2 : env.userEmail = some u) (h3 : u ≠ "")
    (h4 : pyIn u details.fromAddr = true) :
    routeSuggestions env llmPlain llmCtx details message_id
      = (.ok selfReplySuggestions, false) := by
  have hc : (optTruthy env.userEmail
      ∧ pyIn (env.userEmail.getD "") details.fromAddr) := by
    constructor
    · simp [h2, optTruthy, h3]
    · rw [h2]
      simpa using h4
  simp only [routeSuggestions, if_pos h1, if_pos hc]

/-- Witness for C6 at a concrete reply whose `from` field contains the
user's address; the oracles reject every call, so the fixed set can only come
from the short-circuit. -/
theorem route_self_reply_short_circuit_witness :
    routeSuggestions outOfOrderThreadEnv (fun _ => .error ()) (fun _ _ _ => .error ())
      selfReplyDetails "m3" = (.ok selfReplySuggestions, false) :=
  route_self_reply_short_circuit outOfOrderThreadEnv (fun _ => .error ())
    (fun _ _ _ => .error ()) selfReplyDetails "m3" "me@example.com"
    (by decide) (by decide) (by decide) (by decide)

/-- C9: the thread context is the empty string whenever the message has no
(truthy) in-reply-to header, and whenever the message is absent from — or
first in — the sorted thread details, independently of the in-reply-to
header. -/
theorem thread_context_empty_cases (env : GmailEnv) (details : MessageDetails)
    (message_id : String)
    (h : details.inReplyTo = ""
      ∨ (sortedThreadDetails env details).findIdx? (fun d => d.id = message_id) = none
      ∨ (sortedThreadDetails env details).findIdx? (fun d => d.id = message_id) = some 0) :
    buildThreadContext env details message_id = "" := by
  rcases h with h | h | h
  · simp [buildThreadContext, h]
  · simp only [buildThreadContext]
    split_ifs <;> simp [h]
  · simp only [buildThreadContext]
    split_ifs <;> simp [h]

/-- Witness for C9 at a concrete message with no in-reply-to header. -/
theorem thread_context_empty_cases_witness :
    buildThreadContext outOfOrderThreadEnv standaloneDetails "m9" = "" :=
  thread_context_empty_cases outOfOrderThreadEnv standaloneDetails "m9" (Or.inl (by decide))

/-- C7 (code evaluated at the failing input): `get_message_details` never
copies `internalDate` into the details dict, so every sort key of
`details_list.sort(key=lambda x: x.get("internalDate", "0"))` falls back to
`"0"` and the thread stays in fetched order — here the later-dated message
`m1` (internalDate 2000) stays before the earlier-dated `m2` (internalDate
1000), so the sorted list is not ascending by the messages' chronological
markers (the sort itself completes without raising). -/
theorem thread_sort_ignores_internal_date :
    sortedThreadDetails outOfOrderThreadEnv selfReplyDetails
      = [get_message_details rawLater "m1", get_message_details rawEarlier "m2"]
    ∧ rawLater.internalDate = "2000" ∧ rawEarlier.internalDate = "1000"
    ∧ detailsGet (get_message_details rawLater "m1") "internalDate" "0" = "0"
    ∧ detailsGet (get_message_details rawEarlier "m2") "internalDate" "0" = "0" :=
  ⟨by decide, by decide, by decide, by decide, by decide⟩

/-! ## Payload-decoder theorems -/

/-- The depth guard: any call past the bound returns the sentinel. -/
theorem get_body_text_guard (p : Payload) (d m : Nat) (h : d > m) :
    get_body_text p d m = (tooComplexSentinel, false) := by
  obtain ⟨mt, bd, parts⟩ := p
  rw [get_body_text.eq_def]
  simp only [h, if_true]

/-- One unfolding of the decoder on a pure container chain: with the nested
call returning the sentinel as non-html text, the container returns the
sentinel as plain text. -/
theorem deepChain_step (n d : Nat) (hd : ¬d > 10)
    (hnested : get_body_text (deepChain n) (d + 1) 10 = (tooComplexSentinel, false)) :
    get_body_text (deepChain (n + 1)) d 10 = (tooComplexSentinel, false) := by
  have hm : (deepChain n).mime = some "multipart/mixed" := by cases n <;> rfl
  have hb : (deepChain n).bodyData = none := by cases n <;> rfl
  have hc1p : case1Pair (some "multipart/mixed") none = (none, none) := rfl
  show get_body_text (.node (some "multipart/mixed") none (some [deepChain n])) d 10 = _
  rw [get_body_text.eq_1, if_neg hd, hc1p]
  rw [get_body_parts.eq_2, hm, hb]
  rw [if_neg (by decide : ¬(pyLower ((some "multipart/mixed" : Option String).getD "")
      = "text/plain" ∧ optTruthy none = true))]
  rw [if_neg (by decide : ¬(pyLower ((some "multipart/mixed" : Option String).getD "")
      = "text/html" ∧ optTruthy none = true))]
  rw [if_pos (Or.inr (by decide :
      pyStarts (pyLower ((some "multipart/mixed" : Option String).getD "")) "multipart/" = true))]
  rw [hnested]
  rw [show mergeNested (tooComplexSentinel, false) none none
      = (some tooComplexSentinel, none) from by decide]
  rw [get_body_parts.eq_1]
  decide

/-- C2 (amended): when a container chain extends past the depth bound, the
recursive call beyond the bound is replaced by the sentinel, which the
enclosing levels merge as ordinary plain text; with nothing else found within
the bound, the top-level call returns the sentinel with `is_html = false`,
even though a valid plain-text leaf sits beyond the bound. Plain or HTML text
found within the bound instead takes precedence over the sentinel — see the
counterexample — so the guard is a hard stop only for the subtree beyond the
bound, not for the whole decode. -/
theorem get_body_text_deep_nesting_sentinel :
    ∀ (n d : Nat), d ≤ 10 → 11 ≤ d + n →
    get_body_text (deepChain n) d 10 = (tooComplexSentinel, false) := by
  intro n
  induction n with
  | zero =>
    intro d h1 h2
    omega
  | succ n ih =>
    intro d h1 h2
    have hd : ¬d > 10 := by omega
    have hnested : get_body_text (deepChain n) (d + 1) 10 = (tooComplexSentinel, false) := by
      by_cases hcase : d + 1 ≤ 10
      · exact ih (d + 1) hcase (by omega)
      · exact get_body_text_guard _ _ _ (by omega)
    exact deepChain_step n d hd hnested

/-- Witness for C2 at the concrete 12-level chain `deepChain 11`. -/
theorem get_body_text_deep_nesting_sentinel_witness :
    get_body_text (deepChain 11) 0 10 = (tooComplexSentinel, false) :=
  get_body_text_deep_nesting_sentinel 11 0 (by decide) (by decide)

/-- C2 counterexample: a payload whose nesting exceeds the bound (its chain
subtree aborts with the sentinel, second conjunct) still returns the shallow
html leaf's text with `is_html = true` at top level — not the sentinel, so
the exceeded bound is no hard stop for the whole decode. -/
theorem get_body_text_shallow_html_beats_sentinel :
    get_body_text shallowHtmlDeepChain 0 10 = ("hi", true)
    ∧ get_body_text (deepChain 11) 1 10 = (tooComplexSentinel, false) :=
  ⟨by decide, by decide⟩

/-- The final selection: a truthy html slot wins verbatim; a non-truthy html
slot can never yield `is_html = true`. -/
theorem selectBody_spec (pr : Option String × Option String) :
    (optTruthy pr.2 = true → selectBody pr = (pr.2.getD "", true))
    ∧ (optTruthy pr.2 = false → (selectBody pr).2 = false) := by
  constructor
  · intro h
    simp only [selectBody]
    rw [if_pos h]
  · intro h
    simp only [selectBody]
    rw [if_neg (by simp [h])]
    split_ifs <;> rfl

/-- The html slot produced by merging a nested result does not depend on the
plain accumulator. -/
theorem mergeNested_snd (nst : String × Bool) (plain plain' html : Option String) :
    (mergeNested nst plain html).2 = (mergeNested nst plain' html).2 := by
  simp only [mergeNested]
  split_ifs <;> rfl

/-- The html accumulator of the part loop evolves independently of the plain
accumulator: its final value is the html-slot projection. -/
theorem get_body_parts_snd (ps : List Payload) :
    ∀ (d m : Nat) (plain html : Option String),
    (get_body_parts ps d m plain html).2 = htmlCandidateParts ps d m html := by
  induction ps with
  | nil =>
    intro d m plain html
    rw [get_body_parts.eq_1, htmlCandidateParts.eq_1]
  | cons part rest ih =>
    intro d m plain html
    rw [get_body_parts.eq_2, htmlCandidateParts.eq_2]
    split_ifs <;>
      first
      | exact ih d m _ html
      | exact ih d m plain _
      | (rw [ih]
         exact congrArg (htmlCandidateParts rest d m) (mergeNested_snd _ plain none html))

/-- C3 (amended): HTML wins exactly when the first-found html candidate
within the depth bound decodes to a non-empty string — then `_get_body_text`
returns that candidate verbatim with `is_html = true`, and otherwise
`is_html` is `false`. An html leaf decoding to the empty string, or sitting
beyond the depth bound, never wins, and an empty first candidate blocks later
ones, because the `html_text` slot is filled first-found. -/
theorem get_body_text_html_characterization (p : Payload) (d m : Nat) :
    (optTruthy (htmlCandidate p d m) = true →
      get_body_text p d m = ((htmlCandidate p d m).getD "", true))
    ∧ (optTruthy (htmlCandidate p d m) = false →
      (get_body_text p d m).2 = false) := by
  obtain ⟨mt, bd, parts⟩ := p
  by_cases hd : d > m
  · have hguard : get_body_text (Payload.node mt bd parts) d m = (tooComplexSentinel, false) :=
      get_body_text_guard _ d m hd
    have hcand : htmlCandidate (Payload.node mt bd parts) d m = none := by
      rw [htmlCandidate.eq_def]
      simp only [hd, if_true]
    constructor
    · intro h
      rw [hcand] at h
      simp [optTruthy] at h
    · intro _
      rw [hguard]
  · cases parts with
    | none =>
      have hmain : get_body_text (Payload.node mt bd none) d m
          = selectBody (case1Pair mt bd) := by
        rw [get_body_text.eq_def]
        simp only [hd, if_false]
      have hcand : htmlCandidate (Payload.node mt bd none) d m = (case1Pair mt bd).2 := by
        rw [htmlCandidate.eq_def]
        simp only [hd, if_false]
      rw [hmain, hcand]
      exact selectBody_spec (case1Pair mt bd)
    | some ps =>
      have hmain : get_body_text (Payload.node mt bd (some ps)) d m
          = selectBody (get_body_parts ps d m (case1Pair mt bd).1 (case1Pair mt bd).2) := by
        rw [get_body_text.eq_1, if_neg hd]
      have hcand : htmlCandidate (Payload.node mt bd (some ps)) d m
          = (get_body_parts ps d m (case1Pair mt bd).1 (case1Pair mt bd).2).2 := by
        rw [htmlCandidate.eq_1, if_neg hd, get_body_parts_snd]
      rw [hmain, hcand]
      exact selectBody_spec _

/-- Witness for C3 at a concrete alternative payload with a plain and an html
leaf: the html candidate is truthy and wins. -/
theorem get_body_text_html_characterization_witness :
    get_body_text (.node (some "multipart/alternative") none
        (some [plainLeaf "aGk", htmlLeaf "PGI-aGk8L2I-"])) 0 10
      = ((htmlCandidate (.node (some "multipart/alternative") none
          (some [plainLeaf "aGk", htmlLeaf "PGI-aGk8L2I-"])) 0 10).getD "", true) :=
  (get_body_text_html_characterization (.node (some "multipart/alternative") none
      (some [plainLeaf "aGk", htmlLeaf "PGI-aGk8L2I-"])) 0 10).1 (by decide)

/-- C3 counterexample: a payload containing both a `text/plain` leaf and a
`text/html` leaf whose data `"="` decodes to the empty string returns the
plain text with `is_html = false` — HTML does not always win. -/
theorem get_body_text_empty_html_loses :
    get_body_text plainAndEmptyHtml 0 10 = ("hi", false)
    ∧ decode_base64 "=" = "" ∧ decode_base64 "aGk" = "hi" :=
  ⟨by decide, by decide, by decide⟩

/-- Witness for C10: the empty response parses to the empty list. -/
theorem parse_suggestions_empty_iff_witness :
    parse_suggestions "" = [] :=
  (parse_suggestions_empty_iff "").mpr rfl
